import Mathlib

/-!
Verification of the slite-mcp protocol adapter (src/index.ts, src/stdio-server.ts,
src/sliteApi.ts) against its natural-language specification.

The adapter is shallowly embedded: JavaScript objects become Lean structures,
JSON values an inductive type, the remote client a record of operation
behaviours, and each request handler a pure function that also returns the
trace of remote-client operations it invoked.
-/

/-- JSON values, as produced or consumed over both boundaries. -/
inductive Json where
  | null : Json
  | bool (b : Bool) : Json
  | num (n : Int) : Json
  | str (s : String) : Json
  | arr (xs : List Json) : Json
  | obj (fields : List (String × Json)) : Json

/-- JSON string escaping as performed by JSON.stringify on the characters
that occur in this development. -/
def jescape (s : String) : String :=
  String.join (s.data.map fun c =>
    if c = '"' then "\\\""
    else if c = '\\' then "\\\\"
    else if c = '\n' then "\\n"
    else if c = '\r' then "\\r"
    else if c = '\t' then "\\t"
    else String.singleton c)

def spaces (n : Nat) : String := String.mk (List.replicate n ' ')

mutual

/-- JSON.stringify(v, null, 2): pretty-printing with two-space indentation.
`ind` is the current indentation of the surrounding context. -/
def jstr : Json → Nat → String
  | Json.null, _ => "null"
  | Json.bool b, _ => if b then "true" else "false"
  | Json.num n, _ => toString n
  | Json.str s, _ => "\"" ++ jescape s ++ "\""
  | Json.arr [], _ => "[]"
  | Json.arr (x :: xs), ind =>
      "[\n" ++ jstrItems (x :: xs) (ind + 2) ++ "\n" ++ spaces ind ++ "]"
  | Json.obj [], _ => "\x7b\x7d"
  | Json.obj (f :: fs), ind =>
      "\x7b\n" ++ jstrFields (f :: fs) (ind + 2) ++ "\n" ++ spaces ind ++ "\x7d"

def jstrItems : List Json → Nat → String
  | [], _ => ""
  | [x], ind => spaces ind ++ jstr x ind
  | x :: y :: xs, ind => spaces ind ++ jstr x ind ++ ",\n" ++ jstrItems (y :: xs) ind

def jstrFields : List (String × Json) → Nat → String
  | [], _ => ""
  | [(k, v)], ind => spaces ind ++ "\"" ++ jescape k ++ "\": " ++ jstr v ind
  | (k, v) :: f :: fs, ind =>
      spaces ind ++ "\"" ++ jescape k ++ "\": " ++ jstr v ind ++ ",\n" ++ jstrFields (f :: fs) ind

end

/-- JSON.stringify(v, null, 2) at top level. -/
def jsonStringify2 (j : Json) : String := jstr j 0

/-- The SliteNote interface of src/sliteApi.ts: id, title, optional markdown,
optional parentNoteId, optional attributes, createdAt, updatedAt. -/
structure SliteNote where
  id : String
  title : String
  markdown : Option String := none
  parentNoteId : Option String := none
  attributes : Option (List String) := none
  createdAt : String
  updatedAt : String
deriving Repr, DecidableEq

/-- The SliteSearchResult interface of src/sliteApi.ts. -/
structure SliteSearchResult where
  id : String
  title : String
  snippet : Option String := none
  type : String
deriving Repr, DecidableEq

/-- The partial update record accepted by SliteApiClient.updateNote. -/
structure NoteUpdates where
  title : Option String := none
  markdown : Option String := none
  parentNoteId : Option String := none
  attributes : Option (List String) := none
deriving Repr, DecidableEq

/-- JavaScript truthiness of an optional string: undefined and the empty
string are falsy, every other string is truthy. -/
def strTruthy : Option String → Bool
  | none => false
  | some s => !(s == "")

/-- JavaScript truthiness of an optional array: undefined is falsy and any
array value (even empty) is truthy. -/
def arrTruthy (o : Option (List String)) : Bool := o.isSome

example : strTruthy (some "") = false := by decide
example : strTruthy none = false := by decide
example : strTruthy (some "x") = true := by decide
example : arrTruthy (some []) = true := by decide

/-! ## Remote Client layer (src/sliteApi.ts) -/

/-- Outbound HTTP requests issued by SliteApiClient against the fixed base
endpoint. `get` carries the path (with any inline query string) and the axios
`params` object serialized to key/value strings; `post` and `put` carry JSON
bodies. -/
inductive HttpRequest where
  | get (path : String) (params : List (String × String)) : HttpRequest
  | post (path : String) (body : List (String × Json)) : HttpRequest
  | put (path : String) (noteUpdates : NoteUpdates) : HttpRequest

/-- The request issued by SliteApiClient.getNote: GET /notes/noteId?format=format,
with format defaulting to md. -/
def getNoteRequest (noteId : String) (format : String := "md") : HttpRequest :=
  HttpRequest.get ("/notes/" ++ noteId ++ "?format=" ++ format) []

/-- The JSON body built by SliteApiClient.createNote: always title and
markdown; parentNoteId and templateId only when truthy; attributes only when
present and non-empty. -/
def createNotePayload (title markdown : String) (parentNoteId templateId : Option String)
    (attributes : Option (List String)) : List (String × Json) :=
  let p := [("title", Json.str title), ("markdown", Json.str markdown)]
  let p := if strTruthy parentNoteId then p ++ [("parentNoteId", Json.str (parentNoteId.getD ""))] else p
  let p := if strTruthy templateId then p ++ [("templateId", Json.str (templateId.getD ""))] else p
  match attributes with
  | some attrs => if attrs.length > 0 then p ++ [("attributes", Json.arr (attrs.map Json.str))] else p
  | none => p

/-- The request issued by SliteApiClient.createNote: POST /notes with the
payload above. -/
def createNoteRequest (title markdown : String) (parentNoteId templateId : Option String)
    (attributes : Option (List String)) : HttpRequest :=
  HttpRequest.post "/notes" (createNotePayload title markdown parentNoteId templateId attributes)

/-- The request issued by SliteApiClient.updateNote: PUT /notes/noteId with
the updates record sent verbatim as the body. -/
def updateNoteRequest (noteId : String) (updates : NoteUpdates) : HttpRequest :=
  HttpRequest.put ("/notes/" ++ noteId) updates

/-- The request issued by SliteApiClient.searchNotes: GET /search-notes with
axios params q and limit. -/
def searchNotesRequest (query : String) (limit : Int) : HttpRequest :=
  HttpRequest.get "/search-notes" [("q", query), ("limit", toString limit)]

/-- SliteApiClient.searchNotes' result handling: `raw` is the outcome of the
axios call, where the payload is `response.data.results` (absent when the
remote response has no results field, hence Option). A successful call with
no results field yields the empty list; a failure is re-thrown as a single
error whose message embeds the query and the original cause text. -/
def searchNotesClient (raw : Except String (Option (List SliteSearchResult)))
    (query : String) : Except String (List SliteSearchResult) :=
  match raw with
  | Except.ok (some rs) => Except.ok rs
  | Except.ok none => Except.ok []
  | Except.error e => Except.error ("Failed to search for \"" ++ query ++ "\": " ++ e)

/-- SliteApiClient.getNote's error wrapping. -/
def getNoteClient (raw : Except String SliteNote) (noteId : String) : Except String SliteNote :=
  match raw with
  | Except.ok n => Except.ok n
  | Except.error e => Except.error ("Failed to fetch note " ++ noteId ++ ": " ++ e)

/-- SliteApiClient.createNote's error wrapping. -/
def createNoteClient (raw : Except String SliteNote) : Except String SliteNote :=
  match raw with
  | Except.ok n => Except.ok n
  | Except.error e => Except.error ("Failed to create note: " ++ e)

/-- SliteApiClient.updateNote's error wrapping. -/
def updateNoteClient (raw : Except String SliteNote) (noteId : String) : Except String SliteNote :=
  match raw with
  | Except.ok n => Except.ok n
  | Except.error e => Except.error ("Failed to update note " ++ noteId ++ ": " ++ e)

/-! ## Protocol Adapter layer (src/index.ts, class SliteServer) -/

/-- The Remote Client as seen from the Protocol Adapter: one behaviour per
public operation, each either returning a value or throwing an error message.
The adapter always calls getNote with the client's default format md, so the
format parameter is elided here. -/
structure RemoteClient where
  getNote : String → Except String SliteNote
  createNote : String → String → Option String → Option String → Option (List String) →
      Except String SliteNote
  updateNote : String → NoteUpdates → Except String SliteNote
  searchNotes : String → Int → Except String (List SliteSearchResult)
  getAskInfo : Except String Json
  getAskIndex : Except String Json
  getAutomationAssistant : String → Except String Json

/-- A record of one Remote Client operation invocation, with its arguments. -/
inductive RemoteCall where
  | getNote (noteId : String) : RemoteCall
  | createNote (title markdown : String) (parentNoteId templateId : Option String)
      (attributes : Option (List String)) : RemoteCall
  | updateNote (noteId : String) (updates : NoteUpdates) : RemoteCall
  | searchNotes (query : String) (limit : Int) : RemoteCall
  | getAskInfo : RemoteCall
  | getAskIndex : RemoteCall
  | getAutomationAssistant (assistantId : String) : RemoteCall
deriving Repr, DecidableEq

/-- A content block of a tool response: always a text block here,
modelling the JS object with type text and a text field. -/
inductive ContentBlock where
  | text (text : String) : ContentBlock
deriving Repr, DecidableEq

/-- A tools/call response: ordered content blocks plus the error flag, which
is absent (none) on ordinary results and true on caught errors. -/
structure ToolResponse where
  content : List ContentBlock
  isError : Option Bool := none
deriving Repr, DecidableEq

/-- One entry of a resources/read response: the JS object with uri, title
and text fields. -/
structure ResourceContents where
  uri : String
  title : String
  text : String
deriving Repr, DecidableEq

/-- A resources/read response. -/
structure ResourceResponse where
  contents : List ResourceContents
deriving Repr, DecidableEq

/-- What a request handler delivers to the protocol runtime: either an
ordinary response, or a thrown McpError that escapes the handler and is
surfaced by the runtime as a protocol-level error with the given code. -/
inductive HandlerResult (α : Type) where
  | response (r : α) : HandlerResult α
  | protocolFault (code : Int) (msg : String) : HandlerResult α
deriving Repr, DecidableEq

/-- Whether a handler outcome is a protocol-level fault. -/
def HandlerResult.isFault : HandlerResult α → Bool
  | HandlerResult.response _ => false
  | HandlerResult.protocolFault _ _ => true

/-- SDK ErrorCode.InvalidRequest. -/
def invalidRequestCode : Int := -32600
/-- SDK ErrorCode.MethodNotFound. -/
def methodNotFoundCode : Int := -32601
/-- SDK ErrorCode.InternalError. -/
def internalErrorCode : Int := -32603

/-- An error thrown inside the tools/call try block: either an ordinary
Error carrying a message (as produced by the Remote Client), or an McpError
with code and message (as thrown by the default branch). -/
inductive ThrownError where
  | err (msg : String) : ThrownError
  | mcp (code : Int) (msg : String) : ThrownError
deriving Repr, DecidableEq

/-- The `message` property read by `error instanceof Error ? error.message : ...`:
an McpError is an Error whose message the SDK formats as
`MCP error code: msg`. -/
def ThrownError.message : ThrownError → String
  | ThrownError.err m => m
  | ThrownError.mcp code m => "MCP error " ++ toString code ++ ": " ++ m

/-- The arguments object of a tools/call request, as destructured by the
handler. Each field is absent (undefined) or present; the SDK does not
enforce the declared input schemas server-side, so required fields are
optional here too. A required string destructured while absent is the JS
value undefined, which stringifies to "undefined" wherever it is used. -/
structure ToolArgs where
  query : Option String := none
  limit : Option Int := none
  title : Option String := none
  markdown : Option String := none
  parentNoteId : Option String := none
  templateId : Option String := none
  attributes : Option (List String) := none
  noteId : Option String := none
  assistantId : Option String := none
deriving Repr, DecidableEq

/-- Destructuring of a required string argument: an absent value is JS
undefined, rendered as the string "undefined" where it is interpolated. -/
def reqStr (o : Option String) : String := o.getD "undefined"

/-- `item.snippet || 'No snippet available'`. -/
def snippetText (o : Option String) : String :=
  if strTruthy o then o.getD "" else "No snippet available"

/-- The text block built for a successful search-notes call. -/
def searchResultsText (query : String) (results : List SliteSearchResult) : String :=
  "Search results for \"" ++ query ++ "\":\n\n" ++
    String.intercalate "\n" (results.map fun item =>
      "- " ++ item.title ++ ": " ++ snippetText item.snippet ++ " (" ++ item.type ++ ")")

/-- The updates record built by the update-note branch: each truthy string
field is copied, falsy (absent or empty) ones are omitted; attributes is
copied whenever present (arrays are always truthy). -/
def mkUpdates (title markdown parentNoteId : Option String)
    (attributes : Option (List String)) : NoteUpdates :=
  { title := if strTruthy title then title else none,
    markdown := if strTruthy markdown then markdown else none,
    parentNoteId := if strTruthy parentNoteId then parentNoteId else none,
    attributes := attributes }

/-- The body of the tools/call try block (the switch of src/index.ts lines
263-377): dispatch on the tool name, invoke the Remote Client, and either
return a response or throw; paired with the trace of Remote Client
operations invoked. -/
def callToolInner (rc : RemoteClient) (name : String) (args : ToolArgs) :
    Except ThrownError ToolResponse × List RemoteCall :=
  if name = "search-notes" then
    let query := reqStr args.query
    let limit := args.limit.getD 10
    (match rc.searchNotes query limit with
     | Except.ok results =>
        Except.ok { content := [ContentBlock.text (searchResultsText query results)] }
     | Except.error e => Except.error (ThrownError.err e),
     [RemoteCall.searchNotes query limit])
  else if name = "create-note" then
    let title := reqStr args.title
    let markdown := reqStr args.markdown
    (match rc.createNote title markdown args.parentNoteId args.templateId args.attributes with
     | Except.ok note =>
        Except.ok { content := [ContentBlock.text
          ("Note created successfully!\nTitle: " ++ note.title ++ "\nID: " ++ note.id)] }
     | Except.error e => Except.error (ThrownError.err e),
     [RemoteCall.createNote title markdown args.parentNoteId args.templateId args.attributes])
  else if name = "update-note" then
    let noteId := reqStr args.noteId
    if !strTruthy args.title && !strTruthy args.markdown && !strTruthy args.parentNoteId
        && !arrTruthy args.attributes then
      (Except.ok { content := [ContentBlock.text "You must provide at least one field to update."] },
       [])
    else
      let updates := mkUpdates args.title args.markdown args.parentNoteId args.attributes
      (match rc.updateNote noteId updates with
       | Except.ok note =>
          Except.ok { content := [ContentBlock.text
            ("Note updated successfully!\nTitle: " ++ note.title ++ "\nID: " ++ note.id)] }
       | Except.error e => Except.error (ThrownError.err e),
       [RemoteCall.updateNote noteId updates])
  else if name = "get-ask-info" then
    (match rc.getAskInfo with
     | Except.ok askInfo =>
        Except.ok { content := [ContentBlock.text
          ("Slite Ask Information:\n" ++ jsonStringify2 askInfo)] }
     | Except.error e => Except.error (ThrownError.err e),
     [RemoteCall.getAskInfo])
  else if name = "get-ask-index" then
    (match rc.getAskIndex with
     | Except.ok indexInfo =>
        Except.ok { content := [ContentBlock.text
          ("Slite Ask Index Information:\n" ++ jsonStringify2 indexInfo)] }
     | Except.error e => Except.error (ThrownError.err e),
     [RemoteCall.getAskIndex])
  else if name = "get-automation-assistant" then
    let assistantId := reqStr args.assistantId
    (match rc.getAutomationAssistant assistantId with
     | Except.ok assistant =>
        Except.ok { content := [ContentBlock.text
          ("Automation Assistant Information:\n" ++ jsonStringify2 assistant)] }
     | Except.error e => Except.error (ThrownError.err e),
     [RemoteCall.getAutomationAssistant assistantId])
  else
    (Except.error (ThrownError.mcp methodNotFoundCode ("Unknown tool: " ++ name)), [])

/-- The response the catch block (src/index.ts lines 378-386) builds from a
thrown error: a single text block "Error: message" with the error flag true. -/
def caughtResponse (e : ThrownError) : ToolResponse :=
  { content := [ContentBlock.text ("Error: " ++ e.message)], isError := some true }

/-- The complete tools/call handler: the try block's result, with every
thrown error (the McpError of the default branch included, since the throw
sits inside the try) converted by the catch into an ordinary error-flagged
response. -/
def callTool (rc : RemoteClient) (name : String) (args : ToolArgs) :
    HandlerResult ToolResponse × List RemoteCall :=
  match callToolInner rc name args with
  | (Except.ok r, tr) => (HandlerResult.response r, tr)
  | (Except.error e, tr) => (HandlerResult.response (caughtResponse e), tr)

/-! ## resources/read handler (src/index.ts lines 86-132) -/

/-- Strip a prefix from a character list, or fail. -/
def dropPrefixList : List Char → List Char → Option (List Char)
  | [], s => some s
  | _ :: _, [] => none
  | a :: p, b :: s => if a = b then dropPrefixList p s else none

/-- The URI test of the read-resource handler, the regular expression
slite://notes followed optionally by a slash and one or more non-slash
characters, anchored at both ends. Returns none when the URI does not
match, some none for the bare notes URI, and some (some id) for a note URI
with its captured id. -/
def matchNotesUri (uri : String) : Option (Option String) :=
  match dropPrefixList "slite://notes".data uri.data with
  | none => none
  | some [] => some none
  | some (c :: rest) =>
      if c = '/' ∧ rest ≠ [] ∧ '/' ∉ rest then some (some (String.mk rest)) else none

example : matchNotesUri "slite://notes" = some none := by decide
example : matchNotesUri "slite://notes/abc123" = some (some "abc123") := by decide
example : matchNotesUri "slite://notes/a/b" = none := by decide
example : matchNotesUri "slite://notes/" = none := by decide
example : matchNotesUri "https://notes/a" = none := by decide

/-- JSON.stringify's view of a SliteNote object: its defined fields in
interface order, absent optional fields omitted. -/
def noteToJson (n : SliteNote) : Json :=
  Json.obj ([("id", Json.str n.id), ("title", Json.str n.title)] ++
    (match n.markdown with | some m => [("markdown", Json.str m)] | none => []) ++
    (match n.parentNoteId with | some p => [("parentNoteId", Json.str p)] | none => []) ++
    (match n.attributes with
     | some a => [("attributes", Json.arr (a.map Json.str))] | none => []) ++
    [("createdAt", Json.str n.createdAt), ("updatedAt", Json.str n.updatedAt)])

/-- JSON.stringify(note, null, 2), the fallback text when a fetched note has
no truthy markdown body. -/
def serializeNote (n : SliteNote) : String := jsonStringify2 (noteToJson n)

/-- The text returned for a fetched note: `note.markdown || JSON.stringify(note, null, 2)`,
so a truthy (present, non-empty) markdown body verbatim, else the JSON dump. -/
def noteBodyText (note : SliteNote) : String :=
  match note.markdown with
  | some m => if m = "" then serializeNote note else m
  | none => serializeNote note

/-- The static placeholder text returned for the bare notes URI. -/
def allNotesPlaceholder : String :=
  "This would list all notes from Slite. In a real implementation, you would fetch all notes from the Slite API."

/-- The resources/read handler: reject non-matching URIs with an
InvalidRequest McpError (thrown before the try block); fetch and render a
note for notes/id URIs, re-throwing any fetch failure as an InternalError
McpError from the catch block; return the static placeholder for the bare
notes URI. Paired with the trace of Remote Client operations invoked. -/
def readResource (rc : RemoteClient) (uri : String) :
    HandlerResult ResourceResponse × List RemoteCall :=
  match matchNotesUri uri with
  | none =>
      (HandlerResult.protocolFault invalidRequestCode ("Invalid URI format: " ++ uri), [])
  | some (some noteId) =>
      (match rc.getNote noteId with
       | Except.ok note =>
          (HandlerResult.response
             { contents := [ResourceContents.mk uri note.title (noteBodyText note)] },
           [RemoteCall.getNote noteId])
       | Except.error e =>
          (HandlerResult.protocolFault internalErrorCode
             ("Failed to fetch note information: " ++ e),
           [RemoteCall.getNote noteId]))
  | some none =>
      (HandlerResult.response
         { contents := [ResourceContents.mk uri "All Notes" allNotesPlaceholder] }, [])

/-! ## The duplicated stdio adapter variant (src/stdio-server.ts) -/

/-- The stdio variant's search-notes tool handler: same success formatting
as the main adapter, but its catch returns a plain text block
"Failed to search: message" without setting the error flag. The query
argument is zod-validated as required, the limit optional with the same
default of 10. -/
def stdioSearchNotesTool (rc : RemoteClient) (query : String) (limit : Option Int) :
    ToolResponse × List RemoteCall :=
  let l := limit.getD 10
  (match rc.searchNotes query l with
   | Except.ok results =>
      { content := [ContentBlock.text (searchResultsText query results)] }
   | Except.error e =>
      { content := [ContentBlock.text ("Failed to search: " ++ e)] },
   [RemoteCall.searchNotes query l])

/-- The stdio variant's update-note tool handler: identical zero-field
validation and truthiness filtering as the main adapter, with a catch that
returns plain text "Failed to update note: message" without the error
flag. -/
def stdioUpdateNoteTool (rc : RemoteClient) (noteId : String)
    (title markdown parentNoteId : Option String) (attributes : Option (List String)) :
    ToolResponse × List RemoteCall :=
  if !strTruthy title && !strTruthy markdown && !strTruthy parentNoteId
      && !arrTruthy attributes then
    ({ content := [ContentBlock.text "You must provide at least one field to update."] }, [])
  else
    let updates := mkUpdates title markdown parentNoteId attributes
    (match rc.updateNote noteId updates with
     | Except.ok note =>
        { content := [ContentBlock.text
          ("Note updated successfully!\nTitle: " ++ note.title ++ "\nID: " ++ note.id)] }
     | Except.error e =>
        { content := [ContentBlock.text ("Failed to update note: " ++ e)] },
     [RemoteCall.updateNote noteId updates])

/-! ## The tools/list catalog (src/index.ts lines 137-256) -/

/-- A tool declaration: name, human-readable description, and JSON input
schema. -/
structure ToolDecl where
  name : String
  description : String
  inputSchema : Json

/-- Shorthand for a JSON schema property of a given primitive type with a
description. -/
def schemaProp (ty description : String) : Json :=
  Json.obj [("type", Json.str ty), ("description", Json.str description)]

/-- Shorthand for a JSON schema property of array-of-string type with a
description. -/
def schemaArrProp (description : String) : Json :=
  Json.obj [("type", Json.str "array"),
            ("items", Json.obj [("type", Json.str "string")]),
            ("description", Json.str description)]

/-- Shorthand for a JSON object schema with properties and required names. -/
def schemaObj (props : List (String × Json)) (required : List String) : Json :=
  Json.obj [("type", Json.str "object"),
            ("properties", Json.obj props),
            ("required", Json.arr (required.map Json.str))]

/-- The static tool catalog returned by the ListTools handler. -/
def listTools : List ToolDecl :=
  [ToolDecl.mk "search-notes" "Search for notes in Slite"
     (schemaObj [("query", schemaProp "string" "The search query"),
                 ("limit", schemaProp "number" "Maximum number of results to return")]
        ["query"]),
   ToolDecl.mk "create-note" "Create a new note in Slite"
     (schemaObj [("title", schemaProp "string" "Note title"),
                 ("markdown", schemaProp "string" "Note content in markdown format"),
                 ("parentNoteId", schemaProp "string" "Parent note ID"),
                 ("templateId", schemaProp "string" "Template ID to use"),
                 ("attributes", schemaArrProp "Note attributes")]
        ["title", "markdown"]),
   ToolDecl.mk "update-note" "Update an existing note in Slite"
     (schemaObj [("noteId", schemaProp "string" "Note ID to update"),
                 ("title", schemaProp "string" "New note title"),
                 ("markdown", schemaProp "string" "New note content in markdown format"),
                 ("parentNoteId", schemaProp "string" "New parent note ID"),
                 ("attributes", schemaArrProp "New note attributes")]
        ["noteId"]),
   ToolDecl.mk "get-ask-info" "Get Slite Ask information"
     (schemaObj [] []),
   ToolDecl.mk "get-ask-index" "Get Slite Ask index information"
     (schemaObj [] []),
   ToolDecl.mk "get-automation-assistant" "Get automation assistant information"
     (schemaObj [("assistantId", schemaProp "string" "Assistant ID to retrieve")]
        ["assistantId"])]

/-- The names advertised in the tools/list catalog. -/
def listedToolNames : List String := listTools.map ToolDecl.name

/-- The case labels of the tools/call dispatch switch, in source order. -/
def dispatchBranchNames : List String :=
  ["search-notes", "create-note", "update-note", "get-ask-info", "get-ask-index",
   "get-automation-assistant"]

/-- The response the dispatcher produces for a name with no branch: the
default branch's MethodNotFound McpError, absorbed by the catch block. -/
def unknownToolResponse (name : String) : ToolResponse :=
  caughtResponse (ThrownError.mcp methodNotFoundCode ("Unknown tool: " ++ name))

/-! ## Fixtures used by the concrete witnesses -/

/-- A concrete note with a non-empty markdown body. -/
def demoNote : SliteNote :=
  { id := "abc123", title := "Demo", markdown := some "Hello",
    createdAt := "2024-01-01", updatedAt := "2024-01-02" }

/-- A concrete note without a markdown body. -/
def bareNote : SliteNote :=
  { id := "xyz", title := "Bare", createdAt := "2024-01-01", updatedAt := "2024-01-02" }

/-- A remote client whose every operation succeeds with fixed data. -/
def okClient : RemoteClient :=
  { getNote := fun _ => Except.ok demoNote,
    createNote := fun _ _ _ _ _ => Except.ok demoNote,
    updateNote := fun _ _ => Except.ok demoNote,
    searchNotes := fun _ _ => Except.ok [],
    getAskInfo := Except.ok Json.null,
    getAskIndex := Except.ok Json.null,
    getAutomationAssistant := fun _ => Except.ok Json.null }

/-- A remote client whose every operation fails, with the search operation
wrapped the way SliteApiClient.searchNotes wraps a transport failure (an
HTTP 500, say). -/
def errClient : RemoteClient :=
  { getNote := fun _ => Except.error "boom",
    createNote := fun _ _ _ _ _ => Except.error "boom",
    updateNote := fun _ _ => Except.error "boom",
    searchNotes := fun q _ =>
      searchNotesClient (Except.error "Request failed with status code 500") q,
    getAskInfo := Except.error "boom",
    getAskIndex := Except.error "boom",
    getAutomationAssistant := fun _ => Except.error "boom" }

/-- A remote client fetching the bare note. -/
def bareClient : RemoteClient :=
  { okClient with getNote := fun _ => Except.ok bareNote }

/-! ## Helper lemmas -/

theorem stringDataAppend (a b : String) : (a ++ b).data = a.data ++ b.data := by
  cases a; cases b; rfl

theorem strEq_of_data {a b : String} (h : a.data = b.data) : a = b := by
  cases a; cases b; exact congrArg String.mk h

/-- The string `t` begins with the string `p`. -/
def StrBeginsWith (p t : String) : Prop := ∃ rest, t = p ++ rest

/-- The string `t` contains the string `q` as a contiguous substring. -/
def StrContains (q t : String) : Prop := ∃ pre suf, t = pre ++ q ++ suf

theorem strBeginsWith_weaken (p q t : String) (h : StrBeginsWith (p ++ q) t) :
    StrBeginsWith p t := by
  obtain ⟨rest, hrest⟩ := h
  exact ⟨q ++ rest, by rw [hrest, String.append_assoc]⟩

theorem callTool_trace (rc : RemoteClient) (name : String) (args : ToolArgs) :
    (callTool rc name args).2 = (callToolInner rc name args).2 := by
  unfold callTool
  rcases h : callToolInner rc name args with ⟨r | e, tr⟩ <;> simp

theorem callTool_never_faults (rc : RemoteClient) (name : String) (args : ToolArgs) :
    ((callTool rc name args).1).isFault = false := by
  unfold callTool
  rcases h : callToolInner rc name args with ⟨r | e, tr⟩ <;> simp [HandlerResult.isFault]

theorem dropPrefixList_eq_some {p : List Char} :
    ∀ {s r : List Char}, dropPrefixList p s = some r → s = p ++ r := by
  induction p with
  | nil => intro s r h; simpa [dropPrefixList] using h
  | cons a p ih =>
      intro s r h
      cases s with
      | nil => simp [dropPrefixList] at h
      | cons b s =>
          by_cases hab : a = b
          · subst hab
            simp only [dropPrefixList, if_pos rfl] at h
            simpa using ih h
          · simp [dropPrefixList, hab] at h

/-- A URI that is neither the bare notes URI nor a notes URI with a single
non-empty slash-free id segment does not match the handler's pattern. -/
theorem matchNotesUri_eq_none {uri : String}
    (h1 : uri ≠ "slite://notes")
    (h2 : ∀ id : String, uri = "slite://notes/" ++ id → id = "" ∨ '/' ∈ id.data) :
    matchNotesUri uri = none := by
  unfold matchNotesUri
  rcases hd : dropPrefixList "slite://notes".data uri.data with _ | ⟨_ | ⟨c, rest⟩⟩
  · rfl
  · exfalso
    apply h1
    apply strEq_of_data
    simpa using dropPrefixList_eq_some hd
  · have huri : uri.data = "slite://notes".data ++ (c :: rest) := dropPrefixList_eq_some hd
    by_cases hc : c = '/' ∧ rest ≠ [] ∧ '/' ∉ rest
    · exfalso
      obtain ⟨hc1, hc2, hc3⟩ := hc
      subst hc1
      have : uri = "slite://notes/" ++ String.mk rest := by
        apply strEq_of_data
        rw [stringDataAppend, huri]
        have hsl : "slite://notes/".data = "slite://notes".data ++ ['/'] := by decide
        rw [hsl, List.append_assoc]
        rfl
      rcases h2 (String.mk rest) this with h | h
      · exact hc2 (by simpa using congrArg String.data h)
      · exact hc3 h
    · simp [if_neg hc]

/-! ## Claim theorems -/

/-- C5: a createNote call with title "T", markdown "M" and every optional
parameter absent sends POST /notes with the payload holding exactly the
title and markdown keys; no parentNoteId, templateId or attributes key is
present. -/
theorem createNote_minimal_payload (title markdown : String) :
    createNoteRequest title markdown none none none =
      HttpRequest.post "/notes" [("title", Json.str title), ("markdown", Json.str markdown)] :=
  rfl

/-- C7: a resources/read whose URI is neither slite://notes nor
slite://notes/ followed by one non-empty slash-free segment fails with an
InvalidRequest protocol error and invokes no Remote Client operation. -/
theorem readResource_rejects_malformed_uri (rc : RemoteClient) (uri : String)
    (h1 : uri ≠ "slite://notes")
    (h2 : ∀ id : String, uri = "slite://notes/" ++ id → id = "" ∨ '/' ∈ id.data) :
    readResource rc uri =
      (HandlerResult.protocolFault invalidRequestCode ("Invalid URI format: " ++ uri), []) := by
  have h := matchNotesUri_eq_none h1 h2
  simp [readResource, h]

/-- C7 witness: reading slite://notes/a/b (an extra path segment) yields the
InvalidRequest fault and an empty remote-call trace. -/
theorem readResource_rejects_malformed_uri_witness :
    readResource okClient "slite://notes/a/b" =
      (HandlerResult.protocolFault invalidRequestCode "Invalid URI format: slite://notes/a/b", []) :=
  readResource_rejects_malformed_uri okClient "slite://notes/a/b" (by decide)
    (by
      intro id hid
      right
      have hd := congrArg String.data hid
      rw [stringDataAppend] at hd
      have hsplit : "slite://notes/a/b".data = "slite://notes/".data ++ "a/b".data := by decide
      rw [hsplit] at hd
      have hids : "a/b".data = id.data := List.append_cancel_left hd
      rw [← hids]
      decide)

/-- C8: a search-notes tool call with a query and no limit invokes the
Remote Client search with the default limit 10, and the client then issues
GET /search-notes with the limit parameter rendered as 10. -/
theorem searchNotes_default_limit (rc : RemoteClient) (args : ToolArgs) (query : String)
    (hq : args.query = some query) (hl : args.limit = none) :
    (callTool rc "search-notes" args).2 = [RemoteCall.searchNotes query 10] ∧
    searchNotesRequest query 10 = HttpRequest.get "/search-notes" [("q", query), ("limit", "10")] := by
  constructor
  · rw [callTool_trace]
    have h : (callToolInner rc "search-notes" args).2 =
        [RemoteCall.searchNotes (reqStr args.query) (args.limit.getD 10)] := rfl
    rw [h, hq, hl]
    rfl
  · rfl

/-- C8 witness: concrete search with query hello and no limit. -/
theorem searchNotes_default_limit_witness :
    (callTool okClient "search-notes" { query := some "hello" }).2 =
      [RemoteCall.searchNotes "hello" 10] ∧
    searchNotesRequest "hello" 10 =
      HttpRequest.get "/search-notes" [("q", "hello"), ("limit", "10")] :=
  searchNotes_default_limit okClient { query := some "hello" } "hello" rfl rfl

/-- C4: an update-note tool call carrying a noteId and none of the mutable
fields returns the single non-error-flagged validation text and never
invokes the Remote Client updateNote operation; the stdio variant behaves
identically. -/
theorem updateNote_requires_field (rc : RemoteClient) (args : ToolArgs) (noteId : String)
    (hn : args.noteId = some noteId) (ht : args.title = none) (hm : args.markdown = none)
    (hp : args.parentNoteId = none) (ha : args.attributes = none) :
    callTool rc "update-note" args =
      (HandlerResult.response (ToolResponse.mk
        [ContentBlock.text "You must provide at least one field to update."] none), []) ∧
    stdioUpdateNoteTool rc noteId args.title args.markdown args.parentNoteId args.attributes =
      (ToolResponse.mk [ContentBlock.text "You must provide at least one field to update."] none,
       []) := by
  constructor
  · simp [callTool, callToolInner, ht, hm, hp, ha, strTruthy, arrTruthy]
  · simp [stdioUpdateNoteTool, ht, hm, hp, ha, strTruthy, arrTruthy]

/-- C4 witness: concrete update-note call with only a noteId. -/
theorem updateNote_requires_field_witness :
    callTool okClient "update-note" { noteId := some "n1" } =
      (HandlerResult.response (ToolResponse.mk
        [ContentBlock.text "You must provide at least one field to update."] none), []) ∧
    stdioUpdateNoteTool okClient "n1" none none none none =
      (ToolResponse.mk [ContentBlock.text "You must provide at least one field to update."] none,
       []) :=
  updateNote_requires_field okClient { noteId := some "n1" } "n1" rfl rfl rfl rfl rfl

/-- C6: reading slite://notes/id for a note with a non-empty markdown body
returns exactly that body text; for a note without body text it returns the
JSON serialization of the note; in both cases alongside the note's title. -/
theorem readNote_body_or_json (rc : RemoteClient) (uri noteId : String) (note : SliteNote)
    (hm : matchNotesUri uri = some (some noteId))
    (hok : rc.getNote noteId = Except.ok note) :
    (∀ m : String, note.markdown = some m → m ≠ "" →
       readResource rc uri =
         (HandlerResult.response { contents := [ResourceContents.mk uri note.title m] },
          [RemoteCall.getNote noteId])) ∧
    ((note.markdown = none ∨ note.markdown = some "") →
       readResource rc uri =
         (HandlerResult.response
            { contents := [ResourceContents.mk uri note.title (serializeNote note)] },
          [RemoteCall.getNote noteId])) := by
  constructor
  · intro m hmd hne
    simp [readResource, hm, hok, noteBodyText, hmd, hne]
  · intro h
    rcases h with h | h <;> simp [readResource, hm, hok, noteBodyText, h]

/-- C6 witness: a note with body Hello renders exactly Hello; a note with no
body renders its JSON dump; titles accompany both. -/
theorem readNote_body_or_json_witness :
    readResource okClient "slite://notes/abc123" =
      (HandlerResult.response
         { contents := [ResourceContents.mk "slite://notes/abc123" "Demo" "Hello"] },
       [RemoteCall.getNote "abc123"]) ∧
    readResource bareClient "slite://notes/xyz" =
      (HandlerResult.response
         { contents := [ResourceContents.mk "slite://notes/xyz" "Bare" (serializeNote bareNote)] },
       [RemoteCall.getNote "xyz"]) :=
  ⟨(readNote_body_or_json okClient "slite://notes/abc123" "abc123" demoNote (by decide) rfl).1
      "Hello" rfl (by decide),
   (readNote_body_or_json bareClient "slite://notes/xyz" "xyz" bareNote (by decide) rfl).2
      (Or.inl rfl)⟩

/-- C10: in update-note, optional string fields equal to the empty string are
treated as absent: a call with noteId and empty title only short-circuits
with the validation text and no remote call (in both adapter variants); when
some field is truthy the remote update is invoked with exactly the truthy
fields, and an empty-string title, markdown or parentNoteId is omitted from
the updates record. -/
theorem updateNote_empty_string_fields :
    (∀ (rc : RemoteClient) (args : ToolArgs) (noteId : String),
       args.noteId = some noteId → args.title = some "" → args.markdown = none →
       args.parentNoteId = none → args.attributes = none →
       callTool rc "update-note" args =
         (HandlerResult.response (ToolResponse.mk
            [ContentBlock.text "You must provide at least one field to update."] none), []) ∧
       stdioUpdateNoteTool rc noteId args.title args.markdown args.parentNoteId args.attributes =
         (ToolResponse.mk
            [ContentBlock.text "You must provide at least one field to update."] none, [])) ∧
    (∀ (rc : RemoteClient) (args : ToolArgs),
       (strTruthy args.title || strTruthy args.markdown || strTruthy args.parentNoteId ||
          arrTruthy args.attributes) = true →
       (callTool rc "update-note" args).2 =
         [RemoteCall.updateNote (reqStr args.noteId)
            (mkUpdates args.title args.markdown args.parentNoteId args.attributes)] ∧
       (stdioUpdateNoteTool rc (reqStr args.noteId) args.title args.markdown args.parentNoteId
          args.attributes).2 =
         [RemoteCall.updateNote (reqStr args.noteId)
            (mkUpdates args.title args.markdown args.parentNoteId args.attributes)]) ∧
    (∀ (m p : Option String) (a : Option (List String)),
       (mkUpdates (some "") m p a).title = none) ∧
    (∀ (t p : Option String) (a : Option (List String)),
       (mkUpdates t (some "") p a).markdown = none) ∧
    (∀ (t m : Option String) (a : Option (List String)),
       (mkUpdates t m (some "") a).parentNoteId = none) := by
  refine ⟨?_, ?_, ?_, ?_, ?_⟩
  · intro rc args noteId hn ht hm hp ha
    constructor
    · simp [callTool, callToolInner, ht, hm, hp, ha, strTruthy, arrTruthy]
    · simp [stdioUpdateNoteTool, ht, hm, hp, ha, strTruthy, arrTruthy]
  · intro rc args h
    constructor
    · rw [callTool_trace]
      cases ht : strTruthy args.title <;> cases hm : strTruthy args.markdown <;>
        cases hp : strTruthy args.parentNoteId <;> cases ha : arrTruthy args.attributes <;>
        simp [ht, hm, hp, ha] at h ⊢ <;>
        simp [callToolInner, ht, hm, hp, ha]
    · cases ht : strTruthy args.title <;> cases hm : strTruthy args.markdown <;>
        cases hp : strTruthy args.parentNoteId <;> cases ha : arrTruthy args.attributes <;>
        simp [ht, hm, hp, ha] at h ⊢ <;>
        simp [stdioUpdateNoteTool, ht, hm, hp, ha]
  · intro m p a
    simp [mkUpdates, strTruthy]
  · intro t p a
    simp [mkUpdates, strTruthy]
  · intro t m a
    simp [mkUpdates, strTruthy]

/-- C10 witness: empty title alone short-circuits; with a markdown body
present the update is sent with the empty title omitted. -/
theorem updateNote_empty_string_fields_witness :
    callTool okClient "update-note" { noteId := some "n1", title := some "" } =
      (HandlerResult.response (ToolResponse.mk
         [ContentBlock.text "You must provide at least one field to update."] none), []) ∧
    (callTool okClient "update-note"
        { noteId := some "n1", title := some "", markdown := some "body" }).2 =
      [RemoteCall.updateNote "n1" (NoteUpdates.mk none (some "body") none none)] ∧
    (mkUpdates (some "") (some "body") none none).title = none :=
  ⟨(updateNote_empty_string_fields.1 okClient { noteId := some "n1", title := some "" } "n1"
      rfl rfl rfl rfl rfl).1,
   (updateNote_empty_string_fields.2.1 okClient
      { noteId := some "n1", title := some "", markdown := some "body" } (by decide)).1,
   updateNote_empty_string_fields.2.2.1 (some "body") none none⟩

/-- C2 counterexample: when getNote throws during resources/read the adapter
does surface a protocol fault to the host (InternalError), contradicting the
claim that only formatted text is ever returned there. -/
theorem readResource_fault_counterexample :
    readResource errClient "slite://notes/abc" =
      (HandlerResult.protocolFault internalErrorCode "Failed to fetch note information: boom",
       [RemoteCall.getNote "abc"]) ∧
    ((readResource errClient "slite://notes/abc").1).isFault = true := by
  constructor <;> rfl

/-- C2 amended: every tools/call outcome is an ordinary protocol response
(remote errors are absorbed by the catch block), but a resources/read of
notes/id whose getNote throws is re-thrown as an InternalError protocol
fault whose message embeds the cause. -/
theorem error_propagation_policy :
    (∀ (rc : RemoteClient) (name : String) (args : ToolArgs),
       ((callTool rc name args).1).isFault = false) ∧
    (∀ (rc : RemoteClient) (uri noteId e : String),
       matchNotesUri uri = some (some noteId) → rc.getNote noteId = Except.error e →
       readResource rc uri =
         (HandlerResult.protocolFault internalErrorCode
            ("Failed to fetch note information: " ++ e),
          [RemoteCall.getNote noteId])) := by
  constructor
  · exact callTool_never_faults
  · intro rc uri noteId e hm he
    simp [readResource, hm, he]

/-- C2 amended witness: a failing search-notes call is still an ordinary
response; a failing note read is an InternalError fault. -/
theorem error_propagation_policy_witness :
    ((callTool errClient "search-notes" { query := some "q" }).1).isFault = false ∧
    readResource errClient "slite://notes/xyz9" =
      (HandlerResult.protocolFault internalErrorCode "Failed to fetch note information: boom",
       [RemoteCall.getNote "xyz9"]) :=
  ⟨error_propagation_policy.1 errClient "search-notes" { query := some "q" },
   error_propagation_policy.2 errClient "slite://notes/xyz9" "xyz9" "boom" (by decide) rfl⟩

/-- C1 counterexample: a tools/call with an undeclared tool name does not
fail as a protocol-level error: the thrown MethodNotFound McpError is caught
inside the handler's try block and converted into an ordinary error-flagged
response. -/
theorem unknownTool_not_fault_counterexample :
    callTool okClient "does-not-exist" {} =
      (HandlerResult.response (unknownToolResponse "does-not-exist"), []) ∧
    ((callTool okClient "does-not-exist" {}).1).isFault = false := by
  constructor <;> rfl

/-- C1 amended: for every tool name outside the dispatch switch, tools/call
returns an ordinary response whose single text block carries the caught
MethodNotFound message, with the error flag set, and invokes no Remote
Client operation. -/
theorem unknownTool_absorbed (rc : RemoteClient) (name : String) (args : ToolArgs)
    (h : name ∉ dispatchBranchNames) :
    callTool rc name args = (HandlerResult.response (unknownToolResponse name), []) := by
  have h1 : name ≠ "search-notes" := fun e => h (by simp [dispatchBranchNames, e])
  have h2 : name ≠ "create-note" := fun e => h (by simp [dispatchBranchNames, e])
  have h3 : name ≠ "update-note" := fun e => h (by simp [dispatchBranchNames, e])
  have h4 : name ≠ "get-ask-info" := fun e => h (by simp [dispatchBranchNames, e])
  have h5 : name ≠ "get-ask-index" := fun e => h (by simp [dispatchBranchNames, e])
  have h6 : name ≠ "get-automation-assistant" := fun e => h (by simp [dispatchBranchNames, e])
  simp [callTool, callToolInner, unknownToolResponse, h1, h2, h3, h4, h5, h6]

/-- C1 amended witness: a concrete unknown tool name. -/
theorem unknownTool_absorbed_witness :
    callTool okClient "bogus-tool" {} =
      (HandlerResult.response (unknownToolResponse "bogus-tool"), []) :=
  unknownTool_absorbed okClient "bogus-tool" {} (by decide)

/-- C9: the advertised tool catalog and the dispatch switch agree: the
listed names equal the branch labels (each exactly once), every name outside
them falls to the default unknown-tool outcome with no remote call, and
every name among them has a branch producing something else. -/
theorem toolCatalog_matches_dispatch :
    listedToolNames = dispatchBranchNames ∧
    dispatchBranchNames.Nodup ∧
    (∀ name, name ∉ dispatchBranchNames → ∀ (rc : RemoteClient) (args : ToolArgs),
       callTool rc name args = (HandlerResult.response (unknownToolResponse name), [])) ∧
    (∀ name, name ∈ dispatchBranchNames →
       callTool okClient name {} ≠ (HandlerResult.response (unknownToolResponse name), [])) := by
  refine ⟨rfl, by decide, ?_, ?_⟩
  · intro name h rc args
    have h1 : name ≠ "search-notes" := fun e => h (by simp [dispatchBranchNames, e])
    have h2 : name ≠ "create-note" := fun e => h (by simp [dispatchBranchNames, e])
    have h3 : name ≠ "update-note" := fun e => h (by simp [dispatchBranchNames, e])
    have h4 : name ≠ "get-ask-info" := fun e => h (by simp [dispatchBranchNames, e])
    have h5 : name ≠ "get-ask-index" := fun e => h (by simp [dispatchBranchNames, e])
    have h6 : name ≠ "get-automation-assistant" := fun e => h (by simp [dispatchBranchNames, e])
    simp [callTool, callToolInner, unknownToolResponse, h1, h2, h3, h4, h5, h6]
  · intro name h
    simp only [dispatchBranchNames, List.mem_cons, List.not_mem_nil, or_false] at h
    rcases h with rfl | rfl | rfl | rfl | rfl | rfl <;> decide

/-- C9 witness: an unknown name falls through to the default branch with no
remote call; a declared name does not. -/
theorem toolCatalog_matches_dispatch_witness :
    callTool okClient "no-such-tool" {} =
      (HandlerResult.response (unknownToolResponse "no-such-tool"), []) ∧
    callTool okClient "search-notes" {} ≠
      (HandlerResult.response (unknownToolResponse "search-notes"), []) :=
  ⟨toolCatalog_matches_dispatch.2.2.1 "no-such-tool" (by decide) okClient {},
   toolCatalog_matches_dispatch.2.2.2 "search-notes" (by decide)⟩

/-- C3 counterexample: the stdio variant's search-notes handler, on a remote
failure, returns a response whose error flag is not set and whose text does
not begin with Error: (it begins with Failed to search:), so the claim as
stated fails for that registered search-notes tool. -/
theorem stdioSearch_error_flag_counterexample :
    (stdioSearchNotesTool errClient "q" none).1 =
      ToolResponse.mk
        [ContentBlock.text
          "Failed to search: Failed to search for \"q\": Request failed with status code 500"]
        none ∧
    ((stdioSearchNotesTool errClient "q" none).1).isError ≠ some true := by
  constructor <;> decide

/-- C3 amended: when the Remote Client search operation throws (its wrapped
transport failure), the main adapter's search-notes tool returns a single
error-flagged text block beginning with Error: and containing the query;
the stdio variant returns a single non-flagged text block beginning with
Failed to search: and likewise containing the query. -/
theorem searchNotes_error_response :
    (∀ (rc : RemoteClient) (args : ToolArgs) (query e : String),
       args.query = some query →
       (∀ l : Int, rc.searchNotes query l = searchNotesClient (Except.error e) query) →
       ∃ t : String,
         (callTool rc "search-notes" args).1 =
           HandlerResult.response (ToolResponse.mk [ContentBlock.text t] (some true)) ∧
         StrBeginsWith "Error:" t ∧ StrContains query t) ∧
    (∀ (rc : RemoteClient) (query : String) (limit : Option Int) (e : String),
       (∀ l : Int, rc.searchNotes query l = searchNotesClient (Except.error e) query) →
       ∃ t : String,
         (stdioSearchNotesTool rc query limit).1 = ToolResponse.mk [ContentBlock.text t] none ∧
         StrBeginsWith "Failed to search:" t ∧ StrContains query t) := by
  constructor
  · intro rc args query e hq hrc
    refine ⟨"Error: " ++ ("Failed to search for \"" ++ query ++ "\": " ++ e), ?_, ?_, ?_⟩
    · have hinner : callToolInner rc "search-notes" args =
          (Except.error (ThrownError.err ("Failed to search for \"" ++ query ++ "\": " ++ e)),
           [RemoteCall.searchNotes query (args.limit.getD 10)]) := by
        simp [callToolInner, reqStr, hq, hrc, searchNotesClient]
      simp [callTool, hinner, caughtResponse, ThrownError.message]
    · have hlit : ("Error:" ++ " " : String) = "Error: " := by decide
      exact strBeginsWith_weaken "Error:" " " _
        ⟨"Failed to search for \"" ++ query ++ "\": " ++ e, by rw [hlit]⟩
    · refine ⟨"Error: " ++ "Failed to search for \"", "\": " ++ e, ?_⟩
      simp [String.append_assoc]
      rw [← String.append_assoc]
      congr 1
  · intro rc query limit e hrc
    refine ⟨"Failed to search: " ++ ("Failed to search for \"" ++ query ++ "\": " ++ e),
      ?_, ?_, ?_⟩
    · simp [stdioSearchNotesTool, hrc, searchNotesClient]
    · have hlit : ("Failed to search:" ++ " " : String) = "Failed to search: " := by decide
      exact strBeginsWith_weaken "Failed to search:" " " _
        ⟨"Failed to search for \"" ++ query ++ "\": " ++ e, by rw [hlit]⟩
    · refine ⟨"Failed to search: " ++ "Failed to search for \"", "\": " ++ e, ?_⟩
      simp [String.append_assoc]
      rw [← String.append_assoc]
      congr 1

/-- C3 amended witness: concrete failing search against both variants. -/
theorem searchNotes_error_response_witness :
    (∃ t : String,
       (callTool errClient "search-notes" { query := some "q" }).1 =
         HandlerResult.response (ToolResponse.mk [ContentBlock.text t] (some true)) ∧
       StrBeginsWith "Error:" t ∧ StrContains "q" t) ∧
    (∃ t : String,
       (stdioSearchNotesTool errClient "q" none).1 = ToolResponse.mk [ContentBlock.text t] none ∧
       StrBeginsWith "Failed to search:" t ∧ StrContains "q" t) :=
  ⟨searchNotes_error_response.1 errClient { query := some "q" } "q"
      "Request failed with status code 500" rfl (fun _ => rfl),
   searchNotes_error_response.2 errClient "q" none
      "Request failed with status code 500" (fun _ => rfl)⟩
